import Mathlib

/-!
Verification of `scripts/kitten_tts_bridge.py` (Careless-Whisper-V3).

The script is shallowly embedded: Python strings become `List Char`
(`PyStr`), the float `speed` becomes `ℚ` (the script only compares it
against the exactly representable values 0.5 and 2.0 and passes it
through), and every external effect (the bundled eSpeak subprocess, the
KittenTTS model, the filesystem) is an explicit oracle argument, so every
embedded function is total and executable.
-/

namespace KittenBridge

/-- Python strings, modelled as their character sequences. -/
abbrev PyStr := List Char

/-- Shorthand turning a Lean string literal into a `PyStr`. -/
def pys (s : String) : PyStr := s.data

/-- The whitespace characters recognised by Python's `str.split()` /
`str.strip()` (ASCII subset, which is all the script ever produces). -/
def py_isspace (c : Char) : Bool :=
  c == ' ' || c == '\t' || c == '\n' || c == '\x0d' || c == '\x0b' || c == '\x0c'

/-- Does `s` start with `pat`? (helper for `py_replace`). -/
def starts_with : PyStr → PyStr → Bool
  | _, [] => true
  | [], _ :: _ => false
  | c :: s, p :: ps => c == p && starts_with s ps

/-- Fuelled worker for `py_replace`; the fuel is only there to make the
recursion structural, `s.length` steps always suffice for the non-empty
patterns the script uses. -/
def py_replace_aux : Nat → PyStr → PyStr → PyStr → PyStr
  | 0, s, _, _ => s
  | fuel + 1, s, pat, rep =>
    match s with
    | [] => []
    | c :: rest =>
      if starts_with (c :: rest) pat then
        rep ++ py_replace_aux fuel ((c :: rest).drop pat.length) pat rep
      else c :: py_replace_aux fuel rest pat rep

/-- Python `s.replace(pat, rep)`: replace every non-overlapping occurrence,
scanning left to right. -/
def py_replace (s pat rep : PyStr) : PyStr := py_replace_aux s.length s pat rep

/-- Python `s.lower()` (ASCII case mapping, which covers the script's data). -/
def py_lower (s : PyStr) : PyStr := s.map Char.toLower

/-- Python `s.strip()`: drop leading and trailing whitespace. -/
def py_strip (s : PyStr) : PyStr :=
  ((s.dropWhile py_isspace).reverse.dropWhile py_isspace).reverse

/-- Worker for `py_split_ws`, carrying the (reversed) current word. -/
def split_ws_aux : PyStr → PyStr → List PyStr
  | [], acc => if acc.isEmpty then [] else [acc.reverse]
  | c :: s, acc =>
    if py_isspace c then
      if acc.isEmpty then split_ws_aux s [] else acc.reverse :: split_ws_aux s []
    else split_ws_aux s (c :: acc)

/-- Python `s.split()` with no argument: split on runs of whitespace,
discarding empty pieces. -/
def py_split_ws (s : PyStr) : List PyStr := split_ws_aux s []

/-- Python `' '.join(parts)`. -/
def join_space (parts : List PyStr) : PyStr := List.intercalate (pys " ") parts

/-- `' '.join(stdout.strip().split())` — the whitespace normalisation the
script applies to eSpeak's IPA output (lines 90-92). -/
def clean_ipa (s : PyStr) : PyStr := join_space (py_split_ws (py_strip s))

/-! ## The bundled-eSpeak subprocess (lines 82-102) -/

/-- The arguments of one `subprocess.run` invocation, as the script builds
them: command list, `capture_output=True`, `timeout=30`. -/
structure SubprocCall where
  cmd : List PyStr
  capture_output : Bool
  timeout : Option Nat
  deriving DecidableEq

/-- What the operating system returns for one subprocess invocation:
either a completed process (return code and captured stdout) or a raised
exception (`subprocess.TimeoutExpired`, `OSError`, ...). -/
inductive SubprocResult where
  | completed (returncode : Int) (stdout : PyStr)
  | raised
  deriving DecidableEq

/-- The part of the patched backend's configuration the phonemize loop
reads: `self.espeak_exe` and whether `espeak_data.exists()`. -/
structure EspeakCfg where
  espeak_exe : PyStr
  espeak_data : Option PyStr
  deriving DecidableEq

/-- The command list of lines 82-85: `[exe, '-q', '--ipa']`, plus
`['--path', data]` when the data directory exists, plus the text. -/
def espeak_cmd (cfg : EspeakCfg) (text : PyStr) : List PyStr :=
  [cfg.espeak_exe, pys "-q", pys "--ipa"] ++
    (match cfg.espeak_data with
     | some d => [pys "--path", d]
     | none => []) ++ [text]

/-- The full `subprocess.run(cmd, capture_output=True, ..., timeout=30, ...)`
call of line 88. -/
def espeak_call (cfg : EspeakCfg) (text : PyStr) : SubprocCall :=
  { cmd := espeak_cmd cfg text, capture_output := true, timeout := some 30 }

/-- Line 89's acceptance test:
`result.returncode == 0 and result.stdout.strip()` (a raised exception
lands in the `except` arm and so never counts as success). -/
def espeak_accepts : SubprocResult → Bool
  | .completed rc out => rc == 0 && !(py_strip out).isEmpty
  | .raised => false

/-! ## `PatchedEspeakBackend._text_to_basic_ipa` (lines 106-119) -/

/-- The `basic_map` dict of lines 110-113, in its (insertion-order)
iteration order. -/
def basic_map : List (PyStr × PyStr) :=
  [(pys "a", pys "æ"), (pys "e", pys "ɛ"), (pys "i", pys "ɪ"),
   (pys "o", pys "ɔ"), (pys "u", pys "ʊ"),
   (pys "th", pys "θ"), (pys "sh", pys "ʃ"), (pys "ch", pys "ʧ"),
   (pys "ng", pys "ŋ")]

/-- `_text_to_basic_ipa`: lowercase the text, then apply each mapped
replacement in the dict's iteration order (lines 115-119). -/
def text_to_basic_ipa (text : PyStr) : PyStr :=
  basic_map.foldl (fun r p => py_replace r p.1 p.2) (py_lower text)

/-! ## `PatchedEspeakBackend.phonemize` (lines 74-104) -/

/-- The used phoneme source for one text: the bundled eSpeak subprocess,
or the hand-written character substitution. -/
inductive Tier where
  | espeak
  | basic
  deriving DecidableEq

/-- One iteration of the phonemize loop (lines 80-102): run the bundled
eSpeak; on return code 0 with non-blank stdout use its cleaned IPA,
otherwise (failure return code, blank output, or a raised exception) fall
back to `text_to_basic_ipa`.  `run` is the operating-system oracle. -/
def phonemize_one (run : SubprocCall → SubprocResult) (cfg : EspeakCfg) (text : PyStr) : PyStr :=
  match run (espeak_call cfg text) with
  | .completed rc out =>
    if rc == 0 && !(py_strip out).isEmpty then clean_ipa out
    else text_to_basic_ipa text
  | .raised => text_to_basic_ipa text

/-- Which source `phonemize_one` actually used. -/
def tier_used (run : SubprocCall → SubprocResult) (cfg : EspeakCfg) (text : PyStr) : Tier :=
  if espeak_accepts (run (espeak_call cfg text)) then .espeak else .basic

/-- `PatchedEspeakBackend.phonemize` on an already-listified input: one
result per input text, appended in order. -/
def phonemize (run : SubprocCall → SubprocResult) (cfg : EspeakCfg)
    (text_list : List PyStr) : List PyStr :=
  text_list.map (phonemize_one run cfg)

/-- The subprocess invocations one `phonemize` call performs: exactly one
per input text, each built by `espeak_call`. -/
def calls_made (cfg : EspeakCfg) (text_list : List PyStr) : List SubprocCall :=
  text_list.map (espeak_call cfg)

/-! ## JSON result reporting (`_success` / `_error`, lines 268-276) -/

/-- The stream a report is printed to. -/
inductive Chan where
  | stdout
  | stderr
  deriving DecidableEq

/-- The data fields of the success object `generate_audio` builds
(lines 235-241). -/
structure GenSuccess where
  output_path : PyStr
  file_size : Nat
  voice : PyStr
  speed : ℚ
  text_length : Nat
  deriving DecidableEq

/-- The payload carried next to the `success` flag. -/
inductive Payload where
  | gen (d : GenSuccess)
  | voices (vs : List (PyStr × PyStr))
  deriving DecidableEq

/-- A single JSON object with a `success` flag: either
`{"success": true, **data}` or `{"success": false, "error": msg}`. -/
inductive Report where
  | success (p : Payload)
  | error (msg : PyStr)
  deriving DecidableEq

/-- One printed line: stream together with the JSON object. -/
abbrev Emit := Chan × Report

/-- `_success` (lines 268-271): the success object goes to stdout. -/
def emit_success (p : Payload) : Emit := (Chan.stdout, Report.success p)

/-- `_error` (lines 273-276): the error object goes to stderr. -/
def emit_error (m : PyStr) : Emit := (Chan.stderr, Report.error m)

/-! ## `CarelessKittenBridge` (lines 179-276) -/

/-- `self.supported_voices` (lines 184-189). -/
def supported_voices : List PyStr :=
  [pys "expr-voice-2-m", pys "expr-voice-2-f",
   pys "expr-voice-3-m", pys "expr-voice-3-f",
   pys "expr-voice-4-m", pys "expr-voice-4-f",
   pys "expr-voice-5-m", pys "expr-voice-5-f"]

/-- The `voice_descriptions` dict of `list_voices` (lines 250-259), in
iteration order. -/
def voice_descriptions : List (PyStr × PyStr) :=
  [(pys "expr-voice-2-m", pys "Male Voice #2 - Expressive"),
   (pys "expr-voice-2-f", pys "Female Voice #2 - Expressive"),
   (pys "expr-voice-3-m", pys "Male Voice #3 - Expressive"),
   (pys "expr-voice-3-f", pys "Female Voice #3 - Expressive"),
   (pys "expr-voice-4-m", pys "Male Voice #4 - Expressive"),
   (pys "expr-voice-4-f", pys "Female Voice #4 - Expressive"),
   (pys "expr-voice-5-m", pys "Male Voice #5 - Expressive"),
   (pys "expr-voice-5-f", pys "Female Voice #5 - Expressive")]

/-- `list_voices` (lines 248-266): one `_success` call carrying the
id/description pairs. -/
def list_voices : List Emit := [emit_success (Payload.voices voice_descriptions)]

/-- The external effects `generate_audio` can observe: whether the
`KittenTTS(...)` constructor raises (and with what message), whether
`generate_to_file` raises, and the state of the output file afterwards. -/
structure World where
  init_error : Option PyStr
  gen_error : Option PyStr
  file_exists : Bool
  file_size : Nat

/-- Line 213's range test `0.5 <= speed <= 2.0` (`mkRat 1 2` is exactly
the float literal `0.5`). -/
def speed_in_range (speed : ℚ) : Bool :=
  decide (mkRat 1 2 ≤ speed) && decide (speed ≤ 2)

/-- The f-string interpolation `{speed}` of line 214 (Lean's rational
rendering stands in for Python's float rendering; no claim inspects the
digits). -/
def format_float (q : ℚ) : PyStr := (toString q).data

/-- The message of line 209. -/
def voice_error_msg (voice : PyStr) : PyStr :=
  pys "Unsupported voice: " ++ voice ++ pys ". Supported: " ++
    List.intercalate (pys ", ") supported_voices

/-- What one `generate_audio` call produced: the reports it printed, its
return value, and whether it reached the `generate_to_file` call. -/
structure GAResult where
  emits : List Emit
  ok : Bool
  gen_called : Bool
  deriving DecidableEq

/-- `generate_audio` (lines 200-246).  `model_loaded` is whether
`self.model` is already set (always `False` for the fresh bridge `main`
builds); `w` is the external world.  Branches in source order: model
initialisation, voice validation, speed validation, generation (whose
exception lands in the `except` arm of line 244), file-existence check,
file-size check, success. -/
def generate_audio (w : World) (model_loaded : Bool) (text voice : PyStr)
    (speed : ℚ) (output_path : PyStr) : GAResult :=
  if !model_loaded && w.init_error.isSome then
    { emits := [emit_error (pys "Failed to initialize KittenTTS: " ++ w.init_error.getD [])],
      ok := false, gen_called := false }
  else if !(supported_voices.contains voice) then
    { emits := [emit_error (voice_error_msg voice)], ok := false, gen_called := false }
  else if !(speed_in_range speed) then
    { emits := [emit_error (pys "Speed must be between 0.5 and 2.0, got: " ++ format_float speed)],
      ok := false, gen_called := false }
  else
    match w.gen_error with
    | some e =>
      { emits := [emit_error (pys "TTS generation failed: " ++ e)],
        ok := false, gen_called := true }
    | none =>
      if !w.file_exists then
        { emits := [emit_error (pys "Output file not created: " ++ output_path)],
          ok := false, gen_called := true }
      else if w.file_size == 0 then
        { emits := [emit_error (pys "Output file is empty: " ++ output_path)],
          ok := false, gen_called := true }
      else
        { emits := [emit_success (Payload.gen
            { output_path := output_path, file_size := w.file_size,
              voice := voice, speed := speed, text_length := text.length })],
          ok := true, gen_called := true }

/-! ## Command line and `main` (lines 278-299) -/

/-- The value kind argparse converts a flag's argument to. -/
inductive ArgType where
  | str
  | float
  deriving DecidableEq

/-- The argparse action of a flag. -/
inductive ArgAction where
  | store
  | storeTrue
  deriving DecidableEq

/-- A flag's declared default. -/
inductive ArgDefault where
  | noDefault
  | strDefault (s : PyStr)
  | floatDefault (q : ℚ)
  | falseDefault
  deriving DecidableEq

/-- One `parser.add_argument` declaration. -/
structure ArgSpec where
  flag : PyStr
  required : Bool
  argType : Option ArgType
  action : ArgAction
  dflt : ArgDefault
  deriving DecidableEq

/-- `--voice`'s default (line 281). -/
def default_voice : PyStr := pys "expr-voice-2-f"

/-- The five `add_argument` declarations of lines 280-284, in order. -/
def cli_flags : List ArgSpec :=
  [{ flag := pys "--text", required := false, argType := some .str,
     action := .store, dflt := .noDefault },
   { flag := pys "--voice", required := false, argType := some .str,
     action := .store, dflt := .strDefault default_voice },
   { flag := pys "--speed", required := false, argType := some .float,
     action := .store, dflt := .floatDefault 1 },
   { flag := pys "--output", required := false, argType := some .str,
     action := .store, dflt := .noDefault },
   { flag := pys "--list-voices", required := false, argType := none,
     action := .storeTrue, dflt := .falseDefault }]

/-- Which flags the caller supplied on the command line, with their
values. -/
structure Provided where
  text : Option PyStr
  voice : Option PyStr
  speed : Option ℚ
  output : Option PyStr
  list_voices : Bool

/-- The namespace argparse hands to `main` after a successful parse:
omitted flags take their declared defaults. -/
structure Args where
  text : Option PyStr
  voice : PyStr
  speed : ℚ
  output : Option PyStr
  list_voices : Bool

/-- Default substitution performed by `parse_args` for the declarations of
`cli_flags`. -/
def parse_args (p : Provided) : Args :=
  { text := p.text, voice := p.voice.getD default_voice,
    speed := p.speed.getD 1, output := p.output, list_voices := p.list_voices }

/-- Python truthiness of `not args.text` / `not args.output`: true when the
flag was omitted (`None`) or given the empty string. -/
def falsy : Option PyStr → Bool
  | none => true
  | some s => s.isEmpty

/-- Whether the module-level setup block (lines 14-177) ran to completion,
hit the `ImportError` handler, or hit the generic `Exception` handler. -/
inductive SetupOutcome where
  | ok
  | errImport (msg : PyStr)
  | errOther (msg : PyStr)

/-- One full run of the script: the setup block, then `main`
(lines 278-299).  Returns the process exit code and the printed reports.
A plain return from `main` (the `--list-voices` arm) exits with code 0. -/
def run_program (setup : SetupOutcome) (p : Provided) (w : World) : Nat × List Emit :=
  match setup with
  | .errImport m =>
    (1, [emit_error (pys "KittenTTS setup failed: " ++ m ++
          pys ". Ensure all dependencies are installed.")])
  | .errOther m => (1, [emit_error (pys "Unexpected error during setup: " ++ m)])
  | .ok =>
    let args := parse_args p
    if args.list_voices then (0, list_voices)
    else if falsy args.text || falsy args.output then
      (1, [emit_error (pys "Both --text and --output are required for TTS generation")])
    else
      let r := generate_audio w false (args.text.getD []) args.voice args.speed
        (args.output.getD [])
      (if r.ok then 0 else 1, r.emits)

/-! ## Spec-side models (for comparison against the embedded source) -/

/-- The three phoneme sources the specification names. -/
inductive SpecTier where
  | realPhonemizer
  | bundledEspeak
  | charSub
  deriving DecidableEq

/-- Modelled from the spec's fallback-chain wording: which of the first two
tiers would succeed, and with what output (`none` = that tier fails; the
character substitution never fails). -/
structure SpecTiers where
  real_phonemizer : Option PyStr
  bundled_espeak : Option PyStr

/-- Modelled from the spec: "real phonemizer → bundled executable →
hand-written character substitution", each lower tier used only when the
tier above it fails, so the output comes from the earliest succeeding
tier. -/
def spec_chain (t : SpecTiers) (text : PyStr) : PyStr × SpecTier :=
  match t.real_phonemizer with
  | some r => (r, SpecTier.realPhonemizer)
  | none =>
    match t.bundled_espeak with
    | some r => (r, SpecTier.bundledEspeak)
    | none => (text_to_basic_ipa text, SpecTier.charSub)

/-- The cleaned stdout a successful eSpeak run contributes (what tier two
of the chain returns when it succeeds). -/
def clean_stdout : SubprocResult → PyStr
  | .completed _ out => clean_ipa out
  | .raised => []

/-- Written from the claim's wording for the last-resort fallback: the
text lowercased, then each mapped substring replaced in the map's stated
order a, e, i, o, u, th, sh, ch, ng. -/
def spec_basic_ipa (text : PyStr) : PyStr :=
  let r0 := py_lower text
  let r1 := py_replace r0 (pys "a") (pys "æ")
  let r2 := py_replace r1 (pys "e") (pys "ɛ")
  let r3 := py_replace r2 (pys "i") (pys "ɪ")
  let r4 := py_replace r3 (pys "o") (pys "ɔ")
  let r5 := py_replace r4 (pys "u") (pys "ʊ")
  let r6 := py_replace r5 (pys "th") (pys "θ")
  let r7 := py_replace r6 (pys "sh") (pys "ʃ")
  let r8 := py_replace r7 (pys "ch") (pys "ʧ")
  py_replace r8 (pys "ng") (pys "ŋ")

/-! ## Sample inputs used to instantiate universally quantified theorems -/

/-- A sample backend configuration. -/
def cfg0 : EspeakCfg := { espeak_exe := pys "espeak", espeak_data := none }

/-- A sample world in which every external effect succeeds and the output
file ends up with 10 bytes. -/
def w0 : World := { init_error := none, gen_error := none, file_exists := true, file_size := 10 }

/-- A sample command line providing only `--text` and `--output`. -/
def p0 : Provided :=
  { text := some (pys "hi"), voice := none, speed := none,
    output := some (pys "out.wav"), list_voices := false }

/-! ## Theorems -/

example : text_to_basic_ipa (pys "hello") = pys "hɛllɔ" := by decide

example : text_to_basic_ipa (pys "The Thing") = pys "θɛ θɪŋ" := by decide

example : clean_ipa (pys "  hə   loʊ\n") = pys "hə loʊ" := by decide

/-- Helper: `phonemize_one` phrased through `espeak_accepts` and
`clean_stdout`. -/
theorem phonemize_one_eq (run : SubprocCall → SubprocResult) (cfg : EspeakCfg)
    (text : PyStr) :
    phonemize_one run cfg text =
      if espeak_accepts (run (espeak_call cfg text)) then
        clean_stdout (run (espeak_call cfg text))
      else text_to_basic_ipa text := by
  unfold phonemize_one espeak_accepts clean_stdout
  cases run (espeak_call cfg text) with
  | completed rc out =>
    by_cases hc : (rc == 0 && !(py_strip out).isEmpty) = true
    · simp [hc]
    · simp only [Bool.not_eq_true] at hc
      simp [hc]
  | raised => simp

/-- C5: `phonemize` is total over every subprocess oracle and returns
exactly one phoneme string per input text — each either eSpeak's cleaned
stdout or the character-substitution fallback; no tier's failure escapes
it and it prints nothing (the embedded function has no report channel). -/
theorem phonemize_absorbs_all_failures (run : SubprocCall → SubprocResult)
    (cfg : EspeakCfg) (text_list : List PyStr) :
    (phonemize run cfg text_list).length = text_list.length ∧
    (∀ text, phonemize_one run cfg text = clean_stdout (run (espeak_call cfg text)) ∨
      phonemize_one run cfg text = text_to_basic_ipa text) := by
  refine ⟨by simp [phonemize], fun text => ?_⟩
  rcases Bool.eq_false_or_eq_true (espeak_accepts (run (espeak_call cfg text))) with h | h
  · exact Or.inl (by rw [phonemize_one_eq, h]; simp)
  · exact Or.inr (by rw [phonemize_one_eq, h]; simp)

/-- C6: every subprocess invocation `phonemize` performs carries
`timeout=30` (and `capture_output=True`), so no single call can block
without bound. -/
theorem espeak_calls_have_timeout_30 (cfg : EspeakCfg) (text_list : List PyStr)
    (c : SubprocCall) (hc : c ∈ calls_made cfg text_list) :
    c.timeout = some 30 ∧ c.capture_output = true := by
  simp only [calls_made, List.mem_map] at hc
  obtain ⟨t, -, rfl⟩ := hc
  exact ⟨rfl, rfl⟩

/-- Witness for C6 at a concrete configuration and text. -/
theorem espeak_calls_have_timeout_30_witness :
    (espeak_call cfg0 (pys "hi")).timeout = some 30 ∧
    (espeak_call cfg0 (pys "hi")).capture_output = true :=
  espeak_calls_have_timeout_30 cfg0 [pys "hi"] (espeak_call cfg0 (pys "hi"))
    (by simp [calls_made])

/-- C7: the last-resort fallback equals the spec's description — lowercase
the text, then replace the nine mapped substrings in the map's iteration
order — and it is deterministic. -/
theorem text_to_basic_ipa_matches_spec (t : PyStr) :
    text_to_basic_ipa t = spec_basic_ipa t ∧
    (∀ s, s = t → text_to_basic_ipa s = text_to_basic_ipa t) := by
  refine ⟨?_, ?_⟩
  · simp only [text_to_basic_ipa, spec_basic_ipa, basic_map, List.foldl]
  · intro s hs
    rw [hs]

/-- Witness for C7 at the text "The Thing". -/
theorem text_to_basic_ipa_matches_spec_witness :
    text_to_basic_ipa (pys "The Thing") = spec_basic_ipa (pys "The Thing") ∧
    text_to_basic_ipa (pys "The Thing") = text_to_basic_ipa (pys "The Thing") :=
  ⟨(text_to_basic_ipa_matches_spec (pys "The Thing")).1,
   (text_to_basic_ipa_matches_spec (pys "The Thing")).2 (pys "The Thing") rfl⟩

/-- C1 counterexample: in an environment where the real phonemizer
succeeds (with "həloʊ") and the bundled eSpeak fails, the spec's
three-tier chain would use the real phonemizer, but the code never
consults that tier: it produces the character-substitution output
"hɛllɔ" instead. -/
theorem three_tier_chain_counterexample :
    (spec_chain { real_phonemizer := some (pys "həloʊ"), bundled_espeak := none }
        (pys "hello")).2 = SpecTier.realPhonemizer ∧
    (spec_chain { real_phonemizer := some (pys "həloʊ"), bundled_espeak := none }
        (pys "hello")).1 = pys "həloʊ" ∧
    phonemize_one (fun _ => SubprocResult.raised) cfg0 (pys "hello") = pys "hɛllɔ" ∧
    tier_used (fun _ => SubprocResult.raised) cfg0 (pys "hello") = Tier.basic ∧
    phonemize_one (fun _ => SubprocResult.raised) cfg0 (pys "hello") ≠
      (spec_chain { real_phonemizer := some (pys "həloʊ"), bundled_espeak := none }
        (pys "hello")).1 := by
  refine ⟨rfl, rfl, by decide, by decide, by decide⟩

/-- C1 (amended): at runtime the chain has two tiers — the bundled eSpeak
executable is tried first, and the hand-written character substitution is
used exactly when it fails (non-zero return code, blank stdout, or a
raised exception); the real phonemizer is never consulted because the
module patches replace it unconditionally. -/
theorem fallback_chain_two_tier (run : SubprocCall → SubprocResult)
    (cfg : EspeakCfg) (text : PyStr) :
    (espeak_accepts (run (espeak_call cfg text)) = true →
      tier_used run cfg text = Tier.espeak ∧
      phonemize_one run cfg text = clean_stdout (run (espeak_call cfg text))) ∧
    (espeak_accepts (run (espeak_call cfg text)) = false →
      tier_used run cfg text = Tier.basic ∧
      phonemize_one run cfg text = text_to_basic_ipa text) := by
  constructor
  · intro hacc
    exact ⟨by simp [tier_used, hacc], by rw [phonemize_one_eq, hacc]; simp⟩
  · intro hacc
    exact ⟨by simp [tier_used, hacc], by rw [phonemize_one_eq, hacc]; simp⟩

/-- Witness for C1's amended theorem: a run whose bundled eSpeak succeeds
is used as tier one. -/
theorem fallback_chain_two_tier_witness :
    tier_used (fun _ => SubprocResult.completed 0 (pys " hə loʊ ")) cfg0 (pys "hello")
        = Tier.espeak ∧
    phonemize_one (fun _ => SubprocResult.completed 0 (pys " hə loʊ ")) cfg0 (pys "hello")
        = clean_stdout ((fun _ => SubprocResult.completed 0 (pys " hə loʊ "))
            (espeak_call cfg0 (pys "hello"))) :=
  (fallback_chain_two_tier (fun _ => SubprocResult.completed 0 (pys " hə loʊ "))
    cfg0 (pys "hello")).1 (by decide)

/-- Helper: every `generate_audio` call prints exactly one report, a
stdout success object when it returns `True` and a stderr error object
when it returns `False`. -/
theorem generate_audio_shape (w : World) (ml : Bool) (text voice : PyStr)
    (speed : ℚ) (out : PyStr) :
    ((generate_audio w ml text voice speed out).ok = true ∧
      ∃ pl, (generate_audio w ml text voice speed out).emits = [emit_success pl]) ∨
    ((generate_audio w ml text voice speed out).ok = false ∧
      ∃ m, (generate_audio w ml text voice speed out).emits = [emit_error m]) := by
  unfold generate_audio
  split
  · exact Or.inr ⟨rfl, _, rfl⟩
  split
  · exact Or.inr ⟨rfl, _, rfl⟩
  split
  · exact Or.inr ⟨rfl, _, rfl⟩
  split
  · exact Or.inr ⟨rfl, _, rfl⟩
  split
  · exact Or.inr ⟨rfl, _, rfl⟩
  split
  · exact Or.inr ⟨rfl, _, rfl⟩
  exact Or.inl ⟨rfl, _, rfl⟩

/-- C2: every run exits with code 0 or code 1, and with 0 exactly when the
requested operation succeeded, i.e. exactly when a success object was
printed (voices listed, or audio generated and verified). -/
theorem exit_code_zero_iff_success (setup : SetupOutcome) (p : Provided) (w : World) :
    ((run_program setup p w).1 = 0 ∨ (run_program setup p w).1 = 1) ∧
    ((run_program setup p w).1 = 0 ↔
      ∃ pl, (run_program setup p w).2 = [emit_success pl]) := by
  cases setup with
  | errImport m => simp [run_program, emit_success, emit_error]
  | errOther m => simp [run_program, emit_success, emit_error]
  | ok =>
    simp only [run_program]
    split
    · simp [list_voices]
    split
    · simp [emit_success, emit_error]
    rcases generate_audio_shape w false ((parse_args p).text.getD [])
        (parse_args p).voice (parse_args p).speed ((parse_args p).output.getD [])
      with ⟨hok, pl, hem⟩ | ⟨hok, m, hem⟩
    · simp [hok, hem]
    · simp [hok, hem, emit_success, emit_error]

/-- C3: every run prints exactly one JSON report: a success object on
stdout, or an error object on stderr; raised initialisation and
generation exceptions are absorbed into the latter (the embedded run is
total, nothing propagates). -/
theorem single_json_report_per_run (setup : SetupOutcome) (p : Provided) (w : World) :
    (∃ pl, (run_program setup p w).2 = [(Chan.stdout, Report.success pl)]) ∨
    (∃ m, (run_program setup p w).2 = [(Chan.stderr, Report.error m)]) := by
  cases setup with
  | errImport m => exact Or.inr ⟨_, rfl⟩
  | errOther m => exact Or.inr ⟨_, rfl⟩
  | ok =>
    simp only [run_program]
    split
    · exact Or.inl ⟨_, rfl⟩
    split
    · exact Or.inr ⟨_, rfl⟩
    rcases generate_audio_shape w false ((parse_args p).text.getD [])
        (parse_args p).voice (parse_args p).speed ((parse_args p).output.getD [])
      with ⟨hok, pl, hem⟩ | ⟨hok, m, hem⟩
    · exact Or.inl ⟨pl, by simp [hok, hem, emit_success]⟩
    · exact Or.inr ⟨m, by simp [hok, hem, emit_error]⟩

/-- C4: the parser declares exactly the flags `--text`, `--voice`,
`--speed`, `--output`, `--list-voices`; `--speed` is the one
float-converted flag; and an omitted `--voice` / `--speed` parses to the
declared defaults `expr-voice-2-f` / `1.0`. -/
theorem cli_flags_and_defaults :
    cli_flags.map ArgSpec.flag =
      [pys "--text", pys "--voice", pys "--speed", pys "--output", pys "--list-voices"] ∧
    cli_flags.map ArgSpec.argType =
      [some ArgType.str, some ArgType.str, some ArgType.float, some ArgType.str, none] ∧
    (∀ p : Provided, p.voice = none → (parse_args p).voice = default_voice) ∧
    (∀ p : Provided, p.speed = none → (parse_args p).speed = 1) := by
  refine ⟨by decide, by decide, ?_, ?_⟩
  · intro p hp
    simp [parse_args, hp]
  · intro p hp
    simp [parse_args, hp]

/-- Witness for C4 at the sample command line `p0`, which omits `--voice`
and `--speed`. -/
theorem cli_flags_and_defaults_witness :
    (parse_args p0).voice = default_voice ∧ (parse_args p0).speed = 1 :=
  ⟨cli_flags_and_defaults.2.2.1 p0 rfl, cli_flags_and_defaults.2.2.2 p0 rfl⟩

/-- C8: a speed strictly below 0.5 or strictly above 2.0 makes
`generate_audio` report a JSON error and return failure without ever
reaching `generate_to_file`, while every speed in the inclusive range
[0.5, 2.0] — the boundaries included — passes the range test. -/
theorem speed_precondition (w : World) (ml : Bool) (text voice out : PyStr)
    (speed s : ℚ) (hbad : speed < mkRat 1 2 ∨ 2 < speed)
    (h1 : mkRat 1 2 ≤ s) (h2 : s ≤ 2) :
    (generate_audio w ml text voice speed out).ok = false ∧
    (generate_audio w ml text voice speed out).gen_called = false ∧
    (∃ m, (generate_audio w ml text voice speed out).emits = [emit_error m]) ∧
    speed_in_range s = true ∧
    speed_in_range (mkRat 1 2) = true ∧ speed_in_range 2 = true := by
  have hs : speed_in_range speed = false := by
    unfold speed_in_range
    rcases hbad with h | h
    · simp [not_le.mpr h]
    · simp [not_le.mpr h]
  have hrange : speed_in_range s = true := by
    unfold speed_in_range
    simp [h1, h2]
  have tri : (generate_audio w ml text voice speed out).ok = false ∧
      (generate_audio w ml text voice speed out).gen_called = false ∧
      ∃ m, (generate_audio w ml text voice speed out).emits = [emit_error m] := by
    unfold generate_audio
    split
    · exact ⟨rfl, rfl, _, rfl⟩
    split
    · exact ⟨rfl, rfl, _, rfl⟩
    split
    · exact ⟨rfl, rfl, _, rfl⟩
    · rename_i hcond
      rw [hs] at hcond
      simp at hcond
  exact ⟨tri.1, tri.2.1, tri.2.2, hrange, by decide, by decide⟩

/-- Witness for C8: speed 3 is rejected before generation, speeds 1, 0.5
and 2 pass the range test. -/
theorem speed_precondition_witness :
    (generate_audio w0 false (pys "hi") default_voice 3 (pys "out.wav")).ok = false ∧
    (generate_audio w0 false (pys "hi") default_voice 3 (pys "out.wav")).gen_called = false ∧
    (∃ m, (generate_audio w0 false (pys "hi") default_voice 3 (pys "out.wav")).emits
      = [emit_error m]) ∧
    speed_in_range 1 = true ∧
    speed_in_range (mkRat 1 2) = true ∧ speed_in_range 2 = true :=
  speed_precondition w0 false (pys "hi") default_voice (pys "out.wav") 3 1
    (Or.inr (by decide)) (by decide) (by decide)

/-- C9: the voice ids `list_voices` reports are exactly the voices
`generate_audio`'s validation accepts, the default voice belongs to them,
and a command line that omits `--voice` always passes voice validation. -/
theorem voice_inventory_consistent (p : Provided) (hp : p.voice = none) :
    voice_descriptions.map Prod.fst = supported_voices ∧
    supported_voices.contains default_voice = true ∧
    supported_voices.contains (parse_args p).voice = true := by
  refine ⟨by decide, by decide, ?_⟩
  have hv : (parse_args p).voice = default_voice := by
    simp [parse_args, hp]
  rw [hv]
  decide

/-- Witness for C9 at the sample command line `p0`. -/
theorem voice_inventory_consistent_witness :
    voice_descriptions.map Prod.fst = supported_voices ∧
    supported_voices.contains default_voice = true ∧
    supported_voices.contains (parse_args p0).voice = true :=
  voice_inventory_consistent p0 rfl

/-- C10: `generate_audio` prints a success object exactly when it returns
`True`; in that case the output file exists with non-zero size and the
report carries `file_size` equal to the file's size and `text_length`
equal to the input text's length; and a missing or empty output file
always yields failure with an error object. -/
theorem success_requires_verified_output (w : World) (ml : Bool)
    (text voice : PyStr) (speed : ℚ) (out : PyStr) :
    ((∃ pl, emit_success pl ∈ (generate_audio w ml text voice speed out).emits) ↔
      (generate_audio w ml text voice speed out).ok = true) ∧
    ((generate_audio w ml text voice speed out).ok = true →
      w.file_exists = true ∧ 0 < w.file_size ∧
      (generate_audio w ml text voice speed out).emits =
        [emit_success (Payload.gen ⟨out, w.file_size, voice, speed, text.length⟩)]) ∧
    ((w.file_exists = false ∨ w.file_size = 0) →
      (generate_audio w ml text voice speed out).ok = false ∧
      ∃ m, (generate_audio w ml text voice speed out).emits = [emit_error m]) := by
  unfold generate_audio
  split
  · exact ⟨by simp [emit_success, emit_error], by simp, fun _ => ⟨rfl, _, rfl⟩⟩
  split
  · exact ⟨by simp [emit_success, emit_error], by simp, fun _ => ⟨rfl, _, rfl⟩⟩
  split
  · exact ⟨by simp [emit_success, emit_error], by simp, fun _ => ⟨rfl, _, rfl⟩⟩
  split
  · exact ⟨by simp [emit_success, emit_error], by simp, fun _ => ⟨rfl, _, rfl⟩⟩
  split
  · exact ⟨by simp [emit_success, emit_error], by simp, fun _ => ⟨rfl, _, rfl⟩⟩
  split
  · exact ⟨by simp [emit_success, emit_error], by simp, fun _ => ⟨rfl, _, rfl⟩⟩
  · rename_i hexists hsize
    have hex : w.file_exists = true := by simpa using hexists
    have hnz : w.file_size ≠ 0 := by simpa using hsize
    refine ⟨by simp [emit_success], fun _ => ⟨hex, Nat.pos_of_ne_zero hnz, rfl⟩,
      fun hbad => ?_⟩
    rcases hbad with hb | hb
    · rw [hb] at hex
      simp at hex
    · exact absurd hb hnz

/-- Witness for C10: in the all-good world `w0` the call succeeds and the
success object carries the verified size 10 and the text length 2. -/
theorem success_requires_verified_output_witness :
    w0.file_exists = true ∧ 0 < w0.file_size ∧
    (generate_audio w0 false (pys "hi") default_voice 1 (pys "out.wav")).emits =
      [emit_success (Payload.gen
        ⟨pys "out.wav", w0.file_size, default_voice, 1, (pys "hi").length⟩)] :=
  (success_requires_verified_output w0 false (pys "hi") default_voice 1
    (pys "out.wav")).2.1 (by decide)

end KittenBridge
